import Mathlib

/-
  Verification of the gwpy metadata-array core: shallow embedding of
  gwpy/data/array.py (Array), gwpy/data/array2d.py (Array2D),
  gwpy/spectrogram/core.py (Spectrogram connectors) and
  gwpy/spectrum/psd.py (PSD front-ends).

  Numeric values are rationals (Python floats are used only for exact
  small arithmetic in the code paths under study), metadata dicts are
  records of Option fields (a `none` field is an absent dict key), and
  fallible Python code is translated to `Except Err`.
-/

deriving instance DecidableEq for Except

namespace Gwpy

/-- Physical unit, modelling an astropy `Unit` as a vector of integer
exponents over base dimensions (seconds, hertz).  Equality is structural,
`Unit(1) = dimensionless` is the zero vector, and taking a power
multiplies the exponents (astropy `Unit.__pow__`). -/
structure Unitt where
  sec : Int
  hz : Int
deriving DecidableEq, Repr

def Unitt.dimensionless : Unitt := ⟨0, 0⟩

def Unitt.pow (u : Unitt) (y : Nat) : Unitt := ⟨u.sec * y, u.hz * y⟩

/-- Python exceptions raised by the code paths under study. -/
inductive Err where
  | keyError : String → Err
  | valueError : String → Err
  | attributeError : Err
  | zeroDivisionError : Err
deriving DecidableEq, Repr

/-- Metadata dict of an `Array`/`Array2D`/`Spectrogram`.  Recognized keys
are fields; a `none` field models an absent key.  `x0`/`dx` are the
x-axis (time) origin/step storage keys, `y0`/`dy` the y-axis (frequency)
keys; the Spectrogram properties `dt`, `f0`, `df` alias `dx`, `y0`, `dy`
(spectrogram/core.py property aliasing). -/
structure MetaDict where
  name : Option String := none
  unit : Option Unitt := none
  epoch : Option ℚ := none
  channel : Option String := none
  x0 : Option ℚ := none
  dx : Option ℚ := none
  y0 : Option ℚ := none
  dy : Option ℚ := none
  logx : Option Bool := none
  logy : Option Bool := none
deriving DecidableEq, Repr

/-- Read a metadata key, raising `KeyError(key)` when absent
(`self.metadata[key]` in the property getters of array2d.py). -/
def getKey (v : Option ℚ) (key : String) : Except Err ℚ :=
  match v with
  | some q => Except.ok q
  | none => Except.error (Err.keyError key)

/-- Array.unit lazy getter on the metadata dict (array.py lines 282-292):
an unset unit is initialized to the dimensionless unit as a side effect
and returned; a set unit is returned with the dict unchanged. -/
def MetaDict.unitGet (m : MetaDict) : Unitt × MetaDict :=
  match m.unit with
  | some u => (u, m)
  | none => (Unitt.dimensionless, { m with unit := some Unitt.dimensionless })

/-- The metadata dict after one read of `.unit`: the unit key holds its
previous value if set, else the dimensionless unit. -/
def MetaDict.unitDefaulted (m : MetaDict) : MetaDict :=
  { m with unit := some (m.unit.getD Unitt.dimensionless) }

-- ---------------------------------------------------------------------
-- Array (gwpy/data/array.py): a 1-D buffer with a metadata dict.

structure Arr where
  data : List ℚ
  meta : MetaDict
deriving DecidableEq, Repr

/-- Array.name getter (array.py lines 267-276): absent key yields None. -/
def Arr.nameGet (a : Arr) : Option String := a.meta.name

/-- Array.epoch getter (array.py lines 301-313): the stored GPS number,
None when the key is absent (the KeyError is caught). -/
def Arr.epochGet (a : Arr) : Option ℚ := a.meta.epoch

/-- Array.channel getter (array.py lines 324-331): absent key yields None. -/
def Arr.channelGet (a : Arr) : Option String := a.meta.channel

/-- Array.unit lazy getter lifted to the array: returns the unit value
and the array with its (possibly just-initialized) metadata. -/
def Arr.unitGet (a : Arr) : Unitt × Arr :=
  let p := a.meta.unitGet
  (p.1, { a with meta := p.2 })

/-- Array.__pow__ (array.py lines 174-178): the numeric result is the
elementwise power (ndarray.__pow__ with metadata carried over by
__array_wrap__), then the unit is overwritten with `self.unit ** y`.
Reading `self.unit` is the lazy getter, so the pair returned is
(new array, self after the read). -/
def Arr.powA (a : Arr) (y : Nat) : Arr × Arr :=
  let new : Arr := { data := a.data.map (fun v => v ^ y), meta := a.meta }
  let p := a.unitGet
  ({ new with meta := { new.meta with unit := some (p.1.pow y) } }, p.2)

-- ---------------------------------------------------------------------
-- Array2D (gwpy/data/array2d.py): 2-D grid; rows are x-axis samples,
-- columns are y-axis samples, `cols` is shape[1].

structure Grid where
  data : List (List ℚ)
  cols : Nat
  meta : MetaDict
deriving DecidableEq, Repr

def Grid.x0Get (g : Grid) : Except Err ℚ := getKey g.meta.x0 "x0"

def Grid.dxGet (g : Grid) : Except Err ℚ := getKey g.meta.dx "dx"

def Grid.y0Get (g : Grid) : Except Err ℚ := getKey g.meta.y0 "y0"

def Grid.dyGet (g : Grid) : Except Err ℚ := getKey g.meta.dy "dy"

/-- Array2D.span_x (array2d.py lines 104-108):
`Segment(self.x0, self.x0 + self.shape[0] * self.dx)`. -/
def Grid.span_x (g : Grid) : Except Err (ℚ × ℚ) :=
  match g.x0Get with
  | Except.error e => Except.error e
  | Except.ok x0 =>
    match g.dxGet with
    | Except.error e => Except.error e
    | Except.ok dx => Except.ok (x0, x0 + (g.data.length : ℚ) * dx)

/-- Array2D.span_y (array2d.py lines 144-148):
`Segment(self.y0, self.y0 + self.shape[1] * self.dy)`. -/
def Grid.span_y (g : Grid) : Except Err (ℚ × ℚ) :=
  match g.y0Get with
  | Except.error e => Except.error e
  | Except.ok y0 =>
    match g.dyGet with
    | Except.error e => Except.error e
    | Except.ok dy => Except.ok (y0, y0 + (g.cols : ℚ) * dy)

/-- Every k-th element of a list, starting at the head (Python extended
slice step). -/
def everyNth (l : List α) (k : Nat) : List α :=
  (l.enum.filter (fun p => p.1 % k = 0)).map Prod.snd

/-- Python list/ndarray row slicing `l[start:stop:step]` for
non-negative bounds and positive step. -/
def pySliceList (l : List α) (start stop step : Nat) : List α :=
  everyNth ((l.take stop).drop start) step

/-- Array2D.__getitem__ restricted to a slice item (array2d.py lines
50-65): the rows are sliced, the metadata dict is carried over by
__array_finalize__, then `if item.start: new.x0 += new.x0 +
item.start * self.dx` and `if item.step: new.dx *= item.step` are
applied (a start or step of None or 0 is falsy and skipped). -/
def Grid.getitemSlice (g : Grid) (start stop step : Option Nat) :
    Except Err Grid :=
  if step = some 0 then Except.error (Err.valueError "slice step cannot be zero")
  else
    let newData := pySliceList g.data (start.getD 0) (stop.getD g.data.length)
        (step.getD 1)
    let m0 := g.meta
    match
      (match start with
       | none => Except.ok m0
       | some s =>
         if s = 0 then Except.ok m0
         else
           match getKey m0.x0 "x0", g.dxGet with
           | Except.ok x0, Except.ok dx =>
             Except.ok { m0 with x0 := some (x0 + (x0 + (s : ℚ) * dx)) }
           | Except.error e, _ => Except.error e
           | _, Except.error e => Except.error e) with
    | Except.error e => Except.error e
    | Except.ok m1 =>
      match
        (match step with
         | none => Except.ok m1
         | some k =>
           if k = 0 then Except.ok m1
           else
             match getKey m1.dx "dx" with
             | Except.ok dx0 => Except.ok { m1 with dx := some (dx0 * (k : ℚ)) }
             | Except.error e => Except.error e) with
      | Except.error e => Except.error e
      | Except.ok m2 => Except.ok { data := newData, cols := g.cols, meta := m2 }

-- ---------------------------------------------------------------------
-- Spectrogram connectors (gwpy/spectrogram/core.py).  A Spectrogram is
-- an Array2D whose dt/f0/df properties alias the dx/y0/dy storage keys.

/-- Spectrogram.dt: alias of the x-step key.  Modelled from the spec:
the TimeSeries.dt property (timeseries/core.py is not under src/) reads
the stored axis-step key and fails on an absent key, mirroring the
Array2D.dx getter that is under src/. -/
def Grid.dtGet (g : Grid) : Except Err ℚ := g.dxGet

/-- Spectrogram.f0 = Array2D.y0 (spectrogram/core.py lines 98-105). -/
def Grid.f0Get (g : Grid) : Except Err ℚ := g.y0Get

/-- Spectrogram.df = Array2D.dy (spectrogram/core.py lines 107-114). -/
def Grid.dfGet (g : Grid) : Except Err ℚ := g.dyGet

/-- Spectrogram.span: Modelled from the spec: TimeSeries.span
(timeseries/core.py is not under src/) is the half-open GPS interval
[epoch, epoch + N * dt) with N the number of time samples (spec section
4.3 and testable property 1); it fails when epoch is unset (None has no
gps attribute) or dt is unset. -/
def Grid.span (g : Grid) : Except Err (ℚ × ℚ) :=
  match g.meta.epoch with
  | none => Except.error Err.attributeError
  | some e =>
    match g.dtGet with
    | Except.error err => Except.error err
    | Except.ok dt => Except.ok (e, e + (g.data.length : ℚ) * dt)

/-- Spectrogram unit read, lifted from the lazy metadata getter. -/
def Grid.unitGet (g : Grid) : Unitt × Grid :=
  let p := g.meta.unitGet
  (p.1, { g with meta := p.2 })

/-- Array.copy (array.py lines 204-208): a deep copy; on values the
identity. -/
def Grid.copy (g : Grid) : Grid := g

/-- Spectrogram.is_compatible (spectrogram/core.py lines 269-280):
checks dt, df, f0 and unit for equality in that order, raising a
ValueError naming the first disagreeing field.  Reading the units is
the lazy getter, so the states of self and other after the successful
check are returned. -/
def Grid.is_compatible (s o : Grid) : Except Err (Grid × Grid) :=
  match s.dtGet with
  | Except.error e => Except.error e
  | Except.ok sdt =>
    match o.dtGet with
    | Except.error e => Except.error e
    | Except.ok odt =>
      if sdt = odt then
        match s.dfGet with
        | Except.error e => Except.error e
        | Except.ok sdf =>
          match o.dfGet with
          | Except.error e => Except.error e
          | Except.ok odf =>
            if sdf = odf then
              match s.f0Get with
              | Except.error e => Except.error e
              | Except.ok sf0 =>
                match o.f0Get with
                | Except.error e => Except.error e
                | Except.ok of0 =>
                  if sf0 = of0 then
                    if (s.unitGet).1 = (o.unitGet).1 then
                      Except.ok ((s.unitGet).2, (o.unitGet).2)
                    else Except.error
                      (Err.valueError "Spectrogram units do not match")
                  else Except.error (Err.valueError
                    "Spectrogram starting frequencies do not match.")
            else Except.error (Err.valueError
              "Spectrogram frequency resolutios do not match.")
      else Except.error (Err.valueError
        "Spectrogram time resolutions do not match.")

/-- Spectrogram.is_contiguous (spectrogram/core.py lines 282-291):
is_compatible first (propagating its failure and unit initialization),
then 1 if self.span[1] == other.span[0], -1 if other.span[1] ==
self.span[0], else 0. -/
def Grid.is_contiguous (s o : Grid) : Except Err (Int × Grid × Grid) :=
  match s.is_compatible o with
  | Except.error e => Except.error e
  | Except.ok (s1, o1) =>
    match s1.span with
    | Except.error e => Except.error e
    | Except.ok ssp =>
      match o1.span with
      | Except.error e => Except.error e
      | Except.ok osp =>
        if ssp.2 = osp.1 then Except.ok (1, s1, o1)
        else if osp.2 = ssp.1 then Except.ok (-1, s1, o1)
        else Except.ok (0, s1, o1)

/-- Python int()/numpy C-long conversion of a rational: truncation
toward zero. -/
def pyint (q : ℚ) : Int := q.num / q.den

/-- numpy assignment `target_rows = src` with broadcasting: a source of
shape (srows, scols) is assigned into a target of shape (trows, tcols);
each dimension must match or be 1 on the source side, a size-1 source
dimension being repeated.  Returns none (ValueError) when the shapes
cannot broadcast. -/
def broadcastRows (src : List (List ℚ)) (scols trows tcols : Nat) :
    Option (List (List ℚ)) :=
  if src.length = trows ∨ src.length = 1 then
    if scols = tcols ∨ scols = 1 then
      let rowsExp := if src.length = trows then src
        else List.replicate trows (src.headD [])
      some (rowsExp.map (fun r =>
        if scols = tcols then r else List.replicate tcols (r.headD 0)))
    else none
  else none

/-- Tail of Spectrogram.append (spectrogram/core.py lines 341-347):
`new.resize(s)` grows the buffer with zero rows, then
`new[-other.shape[0]:] = other.data` writes the other rows.  A Python
slice `[-0:]` selects all rows, so an empty other targets the whole
resized buffer, and the assignment broadcasts the other data into the
targeted rows. -/
def Grid.appendFinish (new other : Grid) : Except Err Grid :=
  let m := other.data.length
  let total := new.data.length + m
  let padded := new.data ++ List.replicate m (List.replicate new.cols (0 : ℚ))
  let tcount := if m = 0 then total else m
  match broadcastRows other.data other.cols tcount new.cols with
  | none => Except.error (Err.valueError "could not broadcast input array")
  | some rows => Except.ok
      { data := padded.take (total - tcount) ++ rows,
        cols := new.cols, meta := new.meta }

/-- Tail of Spectrogram.prepend (spectrogram/core.py lines 397-404):
resize, shift the original N rows to the back with
`new[-N:] = new.data[:N]`, then `new[:other.shape[0]] = other.data`. -/
def Grid.prependFinish (new other : Grid) : Except Err Grid :=
  let n := new.data.length
  let m := other.data.length
  let total := n + m
  let padded := new.data ++ List.replicate m (List.replicate new.cols (0 : ℚ))
  let t1count := if n = 0 then total else n
  match broadcastRows (padded.take n) new.cols t1count new.cols with
  | none => Except.error (Err.valueError "could not broadcast input array")
  | some rows1 =>
    let d1 := padded.take (total - t1count) ++ rows1
    match broadcastRows other.data other.cols (min m total) new.cols with
    | none => Except.error (Err.valueError "could not broadcast input array")
    | some rows2 => Except.ok
        { data := rows2 ++ d1.drop (min m total),
          cols := new.cols, meta := new.meta }

/-- Spectrogram.append (spectrogram/core.py lines 293-347).  The fuel
argument bounds the recursion depth: the single recursive call (the
gap . pad splice `new.append(zeros, inplace=True)`) passes the default
gap, raise, which never recurses again, so a fuel of 2 is never
exhausted.  The returned triple is (result, state of self after the
call, state of other after the call): self is mutated when inplace is
true, and both operands may have an unset unit lazily initialized by
the compatibility check.  The zero block of the pad branch is a fresh
ndarray viewed as a Spectrogram, so its metadata dict is empty except
for the epoch and dt assigned to it (lines 333-335). -/
def Grid.appendRec : Nat → Grid → Grid → String → Bool →
    Except Err (Grid × Grid × Grid)
  | 0, _, _, _, _ => Except.error (Err.valueError "recursion limit")
  | fuel + 1, a, b, gap, inplace =>
    match a.is_compatible b with
    | Except.error e => Except.error e
    | Except.ok (a1, b1) =>
      match (if inplace then a1 else a1.copy).is_contiguous b1 with
      | Except.error e => Except.error e
      | Except.ok (c, new1, b2) =>
        match
          (if c = 1 then Except.ok new1
           else if gap = "pad" then
             match new1.span, b2.span, new1.dtGet with
             | Except.ok nsp, Except.ok osp, Except.ok dt =>
               if dt = 0 then Except.error Err.zeroDivisionError
               else if (osp.1 - nsp.2) / dt < 1 then
                 Except.error (Err.valueError
                   "Cannot append Spectrogram that starts before this one.")
               else
                 match Grid.appendRec fuel new1
                     { data := List.replicate (pyint ((osp.1 - nsp.2) / dt)).toNat
                         (List.replicate new1.cols (0 : ℚ)),
                       cols := new1.cols,
                       meta := { epoch := some nsp.2, dx := some dt } }
                     "raise" true with
                 | Except.error e => Except.error e
                 | Except.ok (r, _, _) => Except.ok r
             | Except.error e, _, _ => Except.error e
             | _, Except.error e, _ => Except.error e
             | _, _, Except.error e => Except.error e
           else if gap = "ignore" then Except.ok new1
           else Except.error (Err.valueError
             "Cannot append discontiguous Spectrogram") : Except Err Grid) with
        | Except.error e => Except.error e
        | Except.ok new2 =>
          match new2.appendFinish b2 with
          | Except.error e => Except.error e
          | Except.ok final =>
            Except.ok (final, if inplace then final else a1, b2)

/-- Spectrogram.append with the fuel instantiated (never exhausted). -/
def Grid.appendF (a b : Grid) (gap : String) (inplace : Bool) :
    Except Err (Grid × Grid × Grid) :=
  Grid.appendRec 2 a b gap inplace

/-- Spectrogram.prepend (spectrogram/core.py lines 349-404), analogous
to append: the pad branch truncates the gap sample count with int(),
checks it against 1, splices a fresh zero block whose epoch is
other.span[1], and the join requires contiguity direction -1. -/
def Grid.prependRec : Nat → Grid → Grid → String → Bool →
    Except Err (Grid × Grid × Grid)
  | 0, _, _, _, _ => Except.error (Err.valueError "recursion limit")
  | fuel + 1, a, b, gap, inplace =>
    match a.is_compatible b with
    | Except.error e => Except.error e
    | Except.ok (a1, b1) =>
      match (if inplace then a1 else a1.copy).is_contiguous b1 with
      | Except.error e => Except.error e
      | Except.ok (c, new1, b2) =>
        match
          (if c = -1 then Except.ok new1
           else if gap = "pad" then
             match new1.span, b2.span, new1.dtGet with
             | Except.ok nsp, Except.ok osp, Except.ok dt =>
               if dt = 0 then Except.error Err.zeroDivisionError
               else if pyint ((nsp.1 - osp.2) / dt) < 1 then
                 Except.error (Err.valueError
                   "Cannot prepend Spectrogram that starts after this one.")
               else
                 match Grid.prependRec fuel new1
                     { data := List.replicate (pyint ((nsp.1 - osp.2) / dt)).toNat
                         (List.replicate new1.cols (0 : ℚ)),
                       cols := new1.cols,
                       meta := { epoch := some osp.2, dx := some dt } }
                     "raise" true with
                 | Except.error e => Except.error e
                 | Except.ok (r, _, _) => Except.ok r
             | Except.error e, _, _ => Except.error e
             | _, Except.error e, _ => Except.error e
             | _, _, Except.error e => Except.error e
           else if gap = "ignore" then Except.ok new1
           else Except.error (Err.valueError
             "Cannot append discontiguous Spectrogram") : Except Err Grid) with
        | Except.error e => Except.error e
        | Except.ok new2 =>
          match new2.prependFinish b2 with
          | Except.error e => Except.error e
          | Except.ok final =>
            Except.ok (final, if inplace then final else a1, b2)

/-- Spectrogram.prepend with the fuel instantiated (never exhausted). -/
def Grid.prependF (a b : Grid) (gap : String) (inplace : Bool) :
    Except Err (Grid × Grid × Grid) :=
  Grid.prependRec 2 a b gap inplace

-- ---------------------------------------------------------------------
-- PSD front-ends (gwpy/spectrum/psd.py).  The Fourier computation is
-- external (lal.spectrum._psd); the observable content of lal_psd is
-- which backend call it makes, recorded as a call descriptor.

/-- Backend call made by lal_psd: the converted time series data and
the (method, segmentlength, overlap, window) arguments handed to
lal.spectrum._psd. -/
structure PsdCall where
  ts : List ℚ
  method : String
  seglen : ℚ
  overlap : ℚ
  window : Option String
deriving DecidableEq, Repr

/-- lal_psd (psd.py lines 155-197): unwraps Quantity arguments (a no-op
on plain numbers) and calls lal.spectrum._psd with the given method
string; modelled as returning the backend call descriptor. -/
def lal_psd (timeseries : Arr) (method : String)
    (segmentlength overlap : ℚ) (window : Option String) : PsdCall :=
  { ts := timeseries.data, method := method, seglen := segmentlength,
    overlap := overlap, window := window }

/-- median_mean (psd.py lines 103-126): delegates to
lal_psd(timeseries, medianmean, segmentlength, overlap, window). -/
def median_mean (timeseries : Arr) (segmentlength overlap : ℚ)
    (window : Option String) : PsdCall :=
  lal_psd timeseries "medianmean" segmentlength overlap window

/-- median (psd.py lines 129-152): also delegates to
lal_psd(timeseries, medianmean, segmentlength, overlap, window). -/
def median (timeseries : Arr) (segmentlength overlap : ℚ)
    (window : Option String) : PsdCall :=
  lal_psd timeseries "medianmean" segmentlength overlap window

-- ---------------------------------------------------------------------
-- Concrete instances used by the closed theorems

/-- Fully populated metadata: dimensionless unit, epoch 0, dt 1 s,
f0 0 Hz, df 1 Hz. -/
def exMeta : MetaDict :=
  { unit := some Unitt.dimensionless, epoch := some 0, dx := some 1,
    y0 := some 0, dy := some 1 }

def padA : Grid := { data := [[1], [2]], cols := 1, meta := exMeta }

def padB : Grid :=
  { data := [[3]], cols := 1, meta := { exMeta with epoch := some 4 } }

def sliceG : Grid :=
  { data := [[5], [6], [7]], cols := 1,
    meta := { exMeta with x0 := some 1 } }

def arr7 : Arr := { data := [1, 2, 3], meta := { unit := some ⟨0, 1⟩ } }

def arr9 : Arr := { data := [4, 5], meta := {} }

def ctgB : Grid :=
  { data := [[3]], cols := 1, meta := { exMeta with epoch := some 2 } }

def joinedAB : Grid := { data := [[1], [2], [3]], cols := 1, meta := exMeta }

def mmB : Grid :=
  { data := [[3]], cols := 1, meta := { exMeta with dx := some 2 } }

def emptyG : Grid := { data := [], cols := 1, meta := exMeta }

def noUnitMeta : MetaDict :=
  { epoch := some 0, dx := some 1, y0 := some 0, dy := some 1 }

def noUnitA : Grid := { data := [[1]], cols := 1, meta := noUnitMeta }

def noUnitB : Grid :=
  { data := [[2]], cols := 1, meta := { noUnitMeta with epoch := some 1 } }

def wideA : Grid := { data := [[1, 2]], cols := 2, meta := exMeta }

def wideB : Grid :=
  { data := [[3, 4, 5]], cols := 3, meta := { exMeta with epoch := some 1 } }

theorem MetaDict.unitGet_snd (m : MetaDict) : (m.unitGet).2 = m.unitDefaulted := by
  cases m with
  | mk n u e c x0 dx y0 dy lx ly =>
    cases u <;> simp [MetaDict.unitGet, MetaDict.unitDefaulted]

theorem MetaDict.unitDefaulted_of_some (m : MetaDict) (u : Unitt)
    (h : m.unit = some u) : m.unitDefaulted = m := by
  cases m with
  | mk n u0 e c x0 dx y0 dy lx ly =>
    simp only at h
    simp [MetaDict.unitDefaulted, h]

-- ---------------------------------------------------------------------
-- Evaluation lemmas

theorem Grid.span_eval (g : Grid) (e dt : ℚ) (he : g.meta.epoch = some e)
    (hdt : g.meta.dx = some dt) :
    g.span = Except.ok (e, e + (g.data.length : ℚ) * dt) := by
  simp [Grid.span, Grid.dtGet, Grid.dxGet, getKey, he, hdt]

theorem Grid.unitGet_of_some (g : Grid) (u : Unitt) (h : g.meta.unit = some u) :
    g.unitGet = (u, g) := by
  simp [Grid.unitGet, MetaDict.unitGet, h]

theorem Grid.is_compatible_eval (a b : Grid)
    (adt bdt adf bdf af0 bf0 : ℚ) (au bu : Unitt)
    (ha1 : a.meta.dx = some adt) (hb1 : b.meta.dx = some bdt)
    (ha2 : a.meta.dy = some adf) (hb2 : b.meta.dy = some bdf)
    (ha3 : a.meta.y0 = some af0) (hb3 : b.meta.y0 = some bf0)
    (ha4 : a.meta.unit = some au) (hb4 : b.meta.unit = some bu) :
    a.is_compatible b =
      if adt = bdt then
        if adf = bdf then
          if af0 = bf0 then
            if au = bu then Except.ok (a, b)
            else Except.error (Err.valueError "Spectrogram units do not match")
          else Except.error (Err.valueError
            "Spectrogram starting frequencies do not match.")
        else Except.error (Err.valueError
          "Spectrogram frequency resolutios do not match.")
      else Except.error (Err.valueError
        "Spectrogram time resolutions do not match.") := by
  simp [Grid.is_compatible, Grid.dtGet, Grid.dfGet, Grid.f0Get, Grid.dxGet,
    Grid.dyGet, Grid.y0Get, getKey, ha1, hb1, ha2, hb2, ha3, hb3,
    Grid.unitGet_of_some a au ha4, Grid.unitGet_of_some b bu hb4]

theorem Grid.is_contiguous_eval (a b : Grid)
    (dt df f0 : ℚ) (u : Unitt) (ea eb : ℚ)
    (ha1 : a.meta.dx = some dt) (hb1 : b.meta.dx = some dt)
    (ha2 : a.meta.dy = some df) (hb2 : b.meta.dy = some df)
    (ha3 : a.meta.y0 = some f0) (hb3 : b.meta.y0 = some f0)
    (ha4 : a.meta.unit = some u) (hb4 : b.meta.unit = some u)
    (hae : a.meta.epoch = some ea) (hbe : b.meta.epoch = some eb) :
    a.is_contiguous b = Except.ok
      ((if ea + (a.data.length : ℚ) * dt = eb then 1
        else if eb + (b.data.length : ℚ) * dt = ea then -1 else 0 : Int),
       a, b) := by
  simp [Grid.is_contiguous,
    Grid.is_compatible_eval a b dt dt df df f0 f0 u u ha1 hb1 ha2 hb2 ha3
      hb3 ha4 hb4,
    Grid.span_eval a ea dt hae ha1, Grid.span_eval b eb dt hbe hb1]
  split_ifs <;> rfl

theorem Grid.appendFinish_eval (n o : Grid) (hc : o.cols = n.cols)
    (hne : o.data ≠ []) :
    n.appendFinish o =
      Except.ok { data := n.data ++ o.data, cols := n.cols, meta := n.meta } := by
  have hm : o.data.length ≠ 0 := fun h => hne (List.length_eq_zero.mp h)
  simp [Grid.appendFinish, broadcastRows, hc, hm, Nat.add_sub_cancel,
    List.take_left]

-- ---------------------------------------------------------------------
-- Claims

/-- C1: the pad gap policy of Spectrogram.append cannot pad.  padA
spans [0,2) and padB spans [4,5), a positive gap of two whole samples,
and the pair is compatible; yet append with gap pad raises
KeyError(dy): the synthesized zero block is a fresh ndarray view whose
metadata dict holds only the epoch and dt assigned to it, so the
recursive append fails while reading its df in is_compatible, before
any zeros are spliced in.  The docstring of append promises that the
pad policy pads the gap with zeros, so this is a code bug, not intended
behaviour. -/
theorem c1_pad_raises_keyerror :
    padA.span = Except.ok (0, 2) ∧ padB.span = Except.ok (4, 5) ∧
    (∃ p, padA.is_compatible padB = Except.ok p) ∧
    Grid.appendF padA padB "pad" true = Except.error (Err.keyError "dy") :=
  ⟨by with_unfolding_all decide, by with_unfolding_all decide, ⟨(padA, padB), by with_unfolding_all decide⟩, by with_unfolding_all decide⟩

/-- C6: Array2D.__getitem__ slicing bug: sliceG has x0 = 1 and dx = 1,
and the slice [1:] yields a grid whose x0 is 3 = 2*x0 + start*dx rather
than x0 + start*dx = 2 as the claim (and the spec sentence it cites)
states: the source line new.x0 += new.x0 + item.start * self.dx adds
the origin twice.  The data rows and the step clause behave as
claimed. -/
theorem c6_getitem_origin_bug :
    (sliceG.getitemSlice (some 1) none none).map
        (fun g => (g.meta.x0, g.meta.dx, g.data)) =
      Except.ok (some 3, some 1, [[6], [7]]) ∧
    (3 : ℚ) ≠ 1 + 1 * 1 := by
  constructor
  · with_unfolding_all decide
  · with_unfolding_all decide

/-- C7: Array.__pow__ powers the data elementwise and raises the stored
unit to the same power, leaving the operand unchanged when its unit is
set. -/
theorem c7_pow_unit_and_data (a : Arr) (y : Nat) (u : Unitt)
    (hu : a.meta.unit = some u) :
    (a.powA y).1.data = a.data.map (fun v => v ^ y) ∧
    (a.powA y).1.meta.unit = some (u.pow y) ∧
    (a.powA y).2 = a := by
  refine ⟨rfl, ?_, ?_⟩ <;>
    simp [Arr.powA, Arr.unitGet, MetaDict.unitGet, hu]

theorem c7_pow_witness :
    arr7.meta.unit = some ⟨0, 1⟩ ∧
    ((arr7.powA 2).1.data = arr7.data.map (fun v => v ^ 2) ∧
     (arr7.powA 2).1.meta.unit = some (Unitt.pow ⟨0, 1⟩ 2) ∧
     (arr7.powA 2).2 = arr7) :=
  ⟨rfl, c7_pow_unit_and_data arr7 2 ⟨0, 1⟩ rfl⟩

/-- C8: the span along each axis of an Array2D is the half-open
interval from the axis origin of length sample-count times step:
span_x = [x0, x0 + shape0 * dx) and span_y = [y0, y0 + shape1 * dy). -/
theorem c8_span_halfopen (g : Grid) (x0 dx y0 dy : ℚ)
    (h1 : g.meta.x0 = some x0) (h2 : g.meta.dx = some dx)
    (h3 : g.meta.y0 = some y0) (h4 : g.meta.dy = some dy) :
    g.span_x = Except.ok (x0, x0 + (g.data.length : ℚ) * dx) ∧
    g.span_y = Except.ok (y0, y0 + (g.cols : ℚ) * dy) := by
  constructor <;>
    simp [Grid.span_x, Grid.span_y, Grid.x0Get, Grid.dxGet, Grid.y0Get,
      Grid.dyGet, getKey, h1, h2, h3, h4]

theorem c8_span_halfopen_witness :
    sliceG.meta.x0 = some 1 ∧
    (sliceG.span_x = Except.ok (1, 1 + (sliceG.data.length : ℚ) * 1) ∧
     sliceG.span_y = Except.ok (0, 0 + (sliceG.cols : ℚ) * 1)) :=
  ⟨rfl, c8_span_halfopen sliceG 1 1 0 1 rfl rfl rfl rfl⟩

/-- C9: reading an unset name, epoch or channel returns None without
raising, while reading an unset unit initializes the metadata key to
the dimensionless unit as a side effect and returns it, leaving the
data untouched. -/
theorem c9_absent_metadata (a : Arr)
    (hn : a.meta.name = none) (he : a.meta.epoch = none)
    (hc : a.meta.channel = none) (hu : a.meta.unit = none) :
    a.nameGet = none ∧ a.epochGet = none ∧ a.channelGet = none ∧
    (a.unitGet).1 = Unitt.dimensionless ∧
    (a.unitGet).2.meta.unit = some Unitt.dimensionless ∧
    (a.unitGet).2.data = a.data := by
  refine ⟨hn, he, hc, ?_, ?_, rfl⟩ <;>
    simp [Arr.unitGet, MetaDict.unitGet, hu]

theorem c9_absent_metadata_witness :
    arr9.meta.name = none ∧
    ((arr9.unitGet).1 = Unitt.dimensionless ∧
     (arr9.unitGet).2.meta.unit = some Unitt.dimensionless ∧
     (arr9.unitGet).2.data = arr9.data) :=
  ⟨rfl, ((c9_absent_metadata arr9 rfl rfl rfl rfl).2.2.2)⟩

/-- C10: the median PSD front-end makes exactly the same backend call
as median_mean: both pass the medianmean method string to lal_psd with
the same arguments, so the median estimator is never requested. -/
theorem c10_median_is_median_mean (timeseries : Arr)
    (segmentlength overlap : ℚ) (window : Option String) :
    median timeseries segmentlength overlap window =
      median_mean timeseries segmentlength overlap window ∧
    (median timeseries segmentlength overlap window).method =
      "medianmean" :=
  ⟨rfl, rfl⟩

-- ---------------------------------------------------------------------
-- State-tracking lemmas for the connectors

theorem Grid.unitGet_state (g : Grid) :
    (g.unitGet).2 = { g with meta := g.meta.unitDefaulted } := by
  simp [Grid.unitGet, MetaDict.unitGet_snd]

theorem Grid.is_compatible_ok_states (s o : Grid) (p : Grid × Grid)
    (h : s.is_compatible o = Except.ok p) :
    p.1 = { s with meta := s.meta.unitDefaulted } ∧
    p.2 = { o with meta := o.meta.unitDefaulted } := by
  unfold Grid.is_compatible at h
  repeat' split at h
  all_goals (try exact Except.noConfusion h)
  all_goals injection h with h'
  all_goals rw [← h']
  all_goals exact ⟨Grid.unitGet_state s, Grid.unitGet_state o⟩

theorem Grid.appendRec_state (a b : Grid) (gap : String) (ip : Bool)
    (r a2 b2 : Grid)
    (h : Grid.appendRec 2 a b gap ip = Except.ok (r, a2, b2)) :
    (ip = false → a2 = { a with meta := a.meta.unitDefaulted }) ∧
    (ip = true → a2 = r) := by
  unfold Grid.appendRec at h
  cases hc : a.is_compatible b with
  | error e => rw [hc] at h; exact Except.noConfusion h
  | ok p =>
    obtain ⟨a1, b1⟩ := p
    rw [hc] at h
    have hstates := (Grid.is_compatible_ok_states a b (a1, b1) hc).1
    repeat' split at h
    all_goals (try exact Except.noConfusion h)
    all_goals (
      injection h with h'
      simp only [Prod.mk.injEq] at h'
      obtain ⟨hrr, haa, hbb⟩ := h'
      subst hrr
      subst hbb
      subst haa
      constructor <;> intro hip <;> subst hip <;> simp_all)

theorem Grid.prependRec_state (a b : Grid) (gap : String) (ip : Bool)
    (r a2 b2 : Grid)
    (h : Grid.prependRec 2 a b gap ip = Except.ok (r, a2, b2)) :
    (ip = false → a2 = { a with meta := a.meta.unitDefaulted }) ∧
    (ip = true → a2 = r) := by
  unfold Grid.prependRec at h
  cases hc : a.is_compatible b with
  | error e => rw [hc] at h; exact Except.noConfusion h
  | ok p =>
    obtain ⟨a1, b1⟩ := p
    rw [hc] at h
    have hstates := (Grid.is_compatible_ok_states a b (a1, b1) hc).1
    repeat' split at h
    all_goals (try exact Except.noConfusion h)
    all_goals (
      injection h with h'
      simp only [Prod.mk.injEq] at h'
      obtain ⟨hrr, haa, hbb⟩ := h'
      subst hrr
      subst hbb
      subst haa
      constructor <;> intro hip <;> subst hip <;> simp_all)

theorem Grid.appendF_compat_error (a b : Grid) (e : Err) (gap : String)
    (ip : Bool) (h : a.is_compatible b = Except.error e) :
    Grid.appendF a b gap ip = Except.error e := by
  unfold Grid.appendF Grid.appendRec
  rw [h]

theorem Grid.prependF_compat_error (a b : Grid) (e : Err) (gap : String)
    (ip : Bool) (h : a.is_compatible b = Except.error e) :
    Grid.prependF a b gap ip = Except.error e := by
  unfold Grid.prependF Grid.prependRec
  rw [h]

/-- C3: is_compatible succeeds exactly when dt, df, f0 and the data
unit are each equal, fails with a ValueError naming the first
disagreeing field, and append and prepend propagate that failure
unchanged for every gap policy, because they call is_compatible before
consulting the gap argument. -/
theorem c3_compat_fields_and_propagation (a b : Grid)
    (adt bdt adf bdf af0 bf0 : ℚ) (au bu : Unitt)
    (ha1 : a.meta.dx = some adt) (hb1 : b.meta.dx = some bdt)
    (ha2 : a.meta.dy = some adf) (hb2 : b.meta.dy = some bdf)
    (ha3 : a.meta.y0 = some af0) (hb3 : b.meta.y0 = some bf0)
    (ha4 : a.meta.unit = some au) (hb4 : b.meta.unit = some bu) :
    ((∃ p, a.is_compatible b = Except.ok p) ↔
      (adt = bdt ∧ adf = bdf ∧ af0 = bf0 ∧ au = bu)) ∧
    (adt ≠ bdt → a.is_compatible b = Except.error
      (Err.valueError "Spectrogram time resolutions do not match.")) ∧
    (adt = bdt → adf ≠ bdf → a.is_compatible b = Except.error
      (Err.valueError "Spectrogram frequency resolutios do not match.")) ∧
    (adt = bdt → adf = bdf → af0 ≠ bf0 → a.is_compatible b = Except.error
      (Err.valueError "Spectrogram starting frequencies do not match.")) ∧
    (adt = bdt → adf = bdf → af0 = bf0 → au ≠ bu →
      a.is_compatible b = Except.error
        (Err.valueError "Spectrogram units do not match")) ∧
    (∀ e gap ip, a.is_compatible b = Except.error e →
      Grid.appendF a b gap ip = Except.error e ∧
      Grid.prependF a b gap ip = Except.error e) := by
  have hcompat := Grid.is_compatible_eval a b adt bdt adf bdf af0 bf0 au bu
    ha1 hb1 ha2 hb2 ha3 hb3 ha4 hb4
  refine ⟨⟨fun ⟨p, hp⟩ => ?_, fun ⟨h1, h2, h3, h4⟩ =>
      ⟨(a, b), by rw [hcompat]; simp [h1, h2, h3, h4]⟩⟩,
    fun h1 => by rw [hcompat]; simp [h1],
    fun h1 h2 => by rw [hcompat]; simp [h1, h2],
    fun h1 h2 h3 => by rw [hcompat]; simp [h1, h2, h3],
    fun h1 h2 h3 h4 => by rw [hcompat]; simp [h1, h2, h3, h4],
    fun e gap ip he => ⟨Grid.appendF_compat_error a b e gap ip he,
      Grid.prependF_compat_error a b e gap ip he⟩⟩
  rw [hcompat] at hp
  by_cases h1 : adt = bdt
  · by_cases h2 : adf = bdf
    · by_cases h3 : af0 = bf0
      · by_cases h4 : au = bu
        · exact ⟨h1, h2, h3, h4⟩
        · simp [h1, h2, h3, h4] at hp
      · simp [h1, h2, h3] at hp
    · simp [h1, h2] at hp
  · simp [h1] at hp

theorem c3_compat_fields_witness :
    padA.is_compatible mmB = Except.error
      (Err.valueError "Spectrogram time resolutions do not match.") ∧
    Grid.appendF padA mmB "pad" false = Except.error
      (Err.valueError "Spectrogram time resolutions do not match.") ∧
    Grid.prependF padA mmB "ignore" true = Except.error
      (Err.valueError "Spectrogram time resolutions do not match.") := by
  have h := c3_compat_fields_and_propagation padA mmB 1 2 1 1 0 0
    Unitt.dimensionless Unitt.dimensionless rfl rfl rfl rfl rfl rfl rfl rfl
  have he := h.2.1 (by norm_num)
  exact ⟨he, (h.2.2.2.2.2 _ "pad" false he).1,
    (h.2.2.2.2.2 _ "ignore" true he).2⟩

/-- C4 amended: for mutually compatible spectrograms with set metadata,
is_contiguous returns 1 when self's span end equals other's span start,
otherwise -1 when other's span end equals self's span start, otherwise
0; and it is antisymmetric whenever the two spans do not touch at both
ends simultaneously (the claimed unconditional antisymmetry fails for
degenerate pairs, such as two empty spectrograms, where both touching
conditions hold and both directions return 1). -/
theorem c4_contiguous_amended (a b : Grid)
    (dt df f0 : ℚ) (u : Unitt) (ea eb : ℚ)
    (ha1 : a.meta.dx = some dt) (hb1 : b.meta.dx = some dt)
    (ha2 : a.meta.dy = some df) (hb2 : b.meta.dy = some df)
    (ha3 : a.meta.y0 = some f0) (hb3 : b.meta.y0 = some f0)
    (ha4 : a.meta.unit = some u) (hb4 : b.meta.unit = some u)
    (hae : a.meta.epoch = some ea) (hbe : b.meta.epoch = some eb) :
    a.is_contiguous b = Except.ok
      ((if ea + (a.data.length : ℚ) * dt = eb then 1
        else if eb + (b.data.length : ℚ) * dt = ea then -1 else 0 : Int),
       a, b) ∧
    (¬(ea + (a.data.length : ℚ) * dt = eb ∧
        eb + (b.data.length : ℚ) * dt = ea) →
      ∀ va pa vb pb, a.is_contiguous b = Except.ok (va, pa) →
        b.is_contiguous a = Except.ok (vb, pb) → va = -vb) := by
  have hab := Grid.is_contiguous_eval a b dt df f0 u ea eb
    ha1 hb1 ha2 hb2 ha3 hb3 ha4 hb4 hae hbe
  have hba := Grid.is_contiguous_eval b a dt df f0 u eb ea
    hb1 ha1 hb2 ha2 hb3 ha3 hb4 ha4 hbe hae
  refine ⟨hab, fun hn va pa vb pb hva hvb => ?_⟩
  rw [hab] at hva
  rw [hba] at hvb
  injection hva with hva'
  injection hvb with hvb'
  have h1 := congrArg Prod.fst hva'
  have h2 := congrArg Prod.fst hvb'
  simp only at h1 h2
  rw [← h1, ← h2]
  by_cases hA : ea + (a.data.length : ℚ) * dt = eb <;>
    by_cases hB : eb + (b.data.length : ℚ) * dt = ea <;>
    simp [hA, hB] at hn ⊢

/-- C4 counterexample: the compatible pair of two empty spectrograms
(span [0,0) each) satisfies both touching conditions, and is_contiguous
returns 1 in both directions, refuting both the minus-one clause and
antisymmetry as universally claimed. -/
theorem c4_counterexample_empty :
    (∃ p, emptyG.is_compatible emptyG = Except.ok p) ∧
    emptyG.span = Except.ok (0, 0) ∧
    emptyG.is_contiguous emptyG = Except.ok (1, emptyG, emptyG) ∧
    (1 : Int) ≠ -1 :=
  ⟨⟨(emptyG, emptyG), by with_unfolding_all decide⟩,
   by with_unfolding_all decide, by with_unfolding_all decide, by decide⟩

theorem c4_contiguous_witness :
    padA.is_contiguous ctgB = Except.ok
      ((if (0 : ℚ) + (padA.data.length : ℚ) * 1 = 2 then 1
        else if (2 : ℚ) + (ctgB.data.length : ℚ) * 1 = 0 then -1 else 0 :
          Int), padA, ctgB) ∧
    (∀ va pa vb pb, padA.is_contiguous ctgB = Except.ok (va, pa) →
      ctgB.is_contiguous padA = Except.ok (vb, pb) → va = -vb) := by
  have h := c4_contiguous_amended padA ctgB 1 1 0 Unitt.dimensionless 0 2
    rfl rfl rfl rfl rfl rfl rfl rfl rfl rfl
  exact ⟨h.1, h.2 (by with_unfolding_all decide)⟩

theorem broadcastRows_isSome (src : List (List ℚ)) (scols trows tcols : Nat) :
    (broadcastRows src scols trows tcols).isSome ↔
      ((src.length = trows ∨ src.length = 1) ∧ (scols = tcols ∨ scols = 1)) := by
  unfold broadcastRows
  split_ifs <;> simp_all

theorem Grid.appendFinish_isOk (n o : Grid) :
    (∃ g, n.appendFinish o = Except.ok g) ↔
      ((o.cols = n.cols ∨ o.cols = 1) ∧ (o.data ≠ [] ∨ n.data = [])) := by
  have hbr := broadcastRows_isSome o.data o.cols
    (if o.data.length = 0 then n.data.length + o.data.length
     else o.data.length) n.cols
  constructor
  · rintro ⟨g, hg⟩
    simp only [Grid.appendFinish] at hg
    split at hg
    · exact Except.noConfusion hg
    · rename_i rows hrows
      have hsome : (broadcastRows o.data o.cols
          (if o.data.length = 0 then n.data.length + o.data.length
           else o.data.length) n.cols).isSome := by rw [hrows]; rfl
      rw [hbr] at hsome
      refine ⟨hsome.2, ?_⟩
      by_cases hm : o.data = []
      · right
        rcases hsome.1 with h | h
        · simp [hm] at h
          exact List.length_eq_zero.mp h.symm
        · simp [hm] at h
      · exact Or.inl hm
  · rintro ⟨hcol, hne⟩
    have hsome : (broadcastRows o.data o.cols
        (if o.data.length = 0 then n.data.length + o.data.length
         else o.data.length) n.cols).isSome := by
      rw [hbr]
      refine ⟨?_, hcol⟩
      by_cases hm : o.data = []
      · left
        have hn : n.data = [] := hne.resolve_left (fun hcon => hcon hm)
        simp [hm, hn]
      · left
        rw [if_neg (by simpa [List.length_eq_zero] using hm)]
    obtain ⟨rows, hopt⟩ := Option.isSome_iff_exists.mp hsome
    simp only [Grid.appendFinish]
    rw [hopt]
    exact ⟨_, rfl⟩

/-- C2 amended: with gap raise and fully set metadata, append succeeds
exactly when the pair is compatible, self's span end equals other's
span start, and the final numpy row assignment can broadcast other's
rows into the resized buffer: other's frequency-bin (column) count
equals self's or is 1, and other has at least one row unless self has
none.  When the column counts agree and other is nonempty, the result
is self's rows followed by other's rows carrying self's metadata,
with span running to other's span end; for a gap or overlap it fails
with the discontiguity ValueError. -/
theorem c2_append_raise_amended (a b : Grid) (ip : Bool)
    (adt bdt adf bdf af0 bf0 : ℚ) (au bu : Unitt) (ea eb : ℚ)
    (ha1 : a.meta.dx = some adt) (hb1 : b.meta.dx = some bdt)
    (ha2 : a.meta.dy = some adf) (hb2 : b.meta.dy = some bdf)
    (ha3 : a.meta.y0 = some af0) (hb3 : b.meta.y0 = some bf0)
    (ha4 : a.meta.unit = some au) (hb4 : b.meta.unit = some bu)
    (hae : a.meta.epoch = some ea) (hbe : b.meta.epoch = some eb) :
    ((∃ v, Grid.appendF a b "raise" ip = Except.ok v) ↔
      (adt = bdt ∧ adf = bdf ∧ af0 = bf0 ∧ au = bu ∧
        ea + (a.data.length : ℚ) * adt = eb ∧
        (b.cols = a.cols ∨ b.cols = 1) ∧ (b.data ≠ [] ∨ a.data = []))) ∧
    (adt = bdt → adf = bdf → af0 = bf0 → au = bu →
      ea + (a.data.length : ℚ) * adt = eb →
      b.cols = a.cols → b.data ≠ [] →
      Grid.appendF a b "raise" ip = Except.ok
        ({ data := a.data ++ b.data, cols := a.cols, meta := a.meta },
         (if ip then
            { data := a.data ++ b.data, cols := a.cols, meta := a.meta }
          else a), b) ∧
      Grid.span { data := a.data ++ b.data, cols := a.cols, meta := a.meta }
        = Except.ok (ea, eb + (b.data.length : ℚ) * adt)) ∧
    (adt = bdt → adf = bdf → af0 = bf0 → au = bu →
      ea + (a.data.length : ℚ) * adt ≠ eb →
      Grid.appendF a b "raise" ip = Except.error
        (Err.valueError "Cannot append discontiguous Spectrogram")) := by
  have hcompat := Grid.is_compatible_eval a b adt bdt adf bdf af0 bf0 au bu
    ha1 hb1 ha2 hb2 ha3 hb3 ha4 hb4
  have hred : adt = bdt → adf = bdf → af0 = bf0 → au = bu →
      ea + (a.data.length : ℚ) * adt = eb →
      Grid.appendF a b "raise" ip = Except.map
        (fun final => (final, if ip then final else a, b))
        (a.appendFinish b) := by
    intro h1 h2 h3 h4 h5
    subst h1
    subst h2
    subst h3
    subst h4
    have hcO : a.is_compatible b = Except.ok (a, b) := by
      rw [hcompat]; simp
    have hctg := Grid.is_contiguous_eval a b adt adf af0 au ea eb
      ha1 hb1 ha2 hb2 ha3 hb3 ha4 hb4 hae hbe
    rw [if_pos h5] at hctg
    unfold Grid.appendF Grid.appendRec
    simp only [hcO, Grid.copy, ite_self, hctg]
    cases hfin : a.appendFinish b <;> simp [hfin, Except.map]
  have hsucc : adt = bdt → adf = bdf → af0 = bf0 → au = bu →
      ea + (a.data.length : ℚ) * adt = eb →
      b.cols = a.cols → b.data ≠ [] →
      Grid.appendF a b "raise" ip = Except.ok
        ({ data := a.data ++ b.data, cols := a.cols, meta := a.meta },
         (if ip then
            { data := a.data ++ b.data, cols := a.cols, meta := a.meta }
          else a), b) ∧
      Grid.span { data := a.data ++ b.data, cols := a.cols, meta := a.meta }
        = Except.ok (ea, eb + (b.data.length : ℚ) * adt) := by
    intro h1 h2 h3 h4 h5 hcols hbne
    constructor
    · rw [hred h1 h2 h3 h4 h5, Grid.appendFinish_eval a b hcols hbne]
      rfl
    · rw [Grid.span_eval
        { data := a.data ++ b.data, cols := a.cols, meta := a.meta }
        ea adt hae ha1]
      have harith : ea + (((a.data ++ b.data).length : ℕ) : ℚ) * adt
          = eb + (b.data.length : ℚ) * adt := by
        rw [List.length_append]
        push_cast
        linarith
      rw [harith]
  have hdisc : adt = bdt → adf = bdf → af0 = bf0 → au = bu →
      ea + (a.data.length : ℚ) * adt ≠ eb →
      Grid.appendF a b "raise" ip = Except.error
        (Err.valueError "Cannot append discontiguous Spectrogram") := by
    intro h1 h2 h3 h4 h5
    subst h1
    subst h2
    subst h3
    subst h4
    have hcO : a.is_compatible b = Except.ok (a, b) := by
      rw [hcompat]; simp
    have hctg := Grid.is_contiguous_eval a b adt adf af0 au ea eb
      ha1 hb1 ha2 hb2 ha3 hb3 ha4 hb4 hae hbe
    rw [if_neg h5] at hctg
    unfold Grid.appendF Grid.appendRec
    simp only [hcO, Grid.copy, ite_self, hctg]
    by_cases hov : eb + (b.data.length : ℚ) * adt = ea <;> simp [hov]
  refine ⟨⟨fun ⟨v, hv⟩ => ?_, fun ⟨h1, h2, h3, h4, h5, hbc1, hbc2⟩ => ?_⟩,
    hsucc, hdisc⟩
  · by_cases h1 : adt = bdt
    · by_cases h2 : adf = bdf
      · by_cases h3 : af0 = bf0
        · by_cases h4 : au = bu
          · by_cases h5 : ea + (a.data.length : ℚ) * adt = eb
            · have hok : ∃ g, a.appendFinish b = Except.ok g := by
                rcases hfin : a.appendFinish b with e | g
                · rw [hred h1 h2 h3 h4 h5, hfin] at hv
                  exact Except.noConfusion hv
                · exact ⟨g, rfl⟩
              obtain ⟨hbc1, hbc2⟩ := (Grid.appendFinish_isOk a b).mp hok
              exact ⟨h1, h2, h3, h4, h5, hbc1, hbc2⟩
            · rw [hdisc h1 h2 h3 h4 h5] at hv
              exact Except.noConfusion hv
          · rw [Grid.appendF_compat_error a b
                (Err.valueError "Spectrogram units do not match") "raise" ip
                (by rw [hcompat]; simp [h1, h2, h3, h4])] at hv
            exact Except.noConfusion hv
        · rw [Grid.appendF_compat_error a b
              (Err.valueError "Spectrogram starting frequencies do not match.")
              "raise" ip (by rw [hcompat]; simp [h1, h2, h3])] at hv
          exact Except.noConfusion hv
      · rw [Grid.appendF_compat_error a b
            (Err.valueError "Spectrogram frequency resolutios do not match.")
            "raise" ip (by rw [hcompat]; simp [h1, h2])] at hv
        exact Except.noConfusion hv
    · rw [Grid.appendF_compat_error a b
          (Err.valueError "Spectrogram time resolutions do not match.")
          "raise" ip (by rw [hcompat]; simp [h1])] at hv
      exact Except.noConfusion hv
  · rw [hred h1 h2 h3 h4 h5]
    obtain ⟨g, hg⟩ := (Grid.appendFinish_isOk a b).mpr ⟨hbc1, hbc2⟩
    rw [hg]
    exact ⟨_, rfl⟩

/-- C2 counterexample: wideA (one row of two bins) and wideB (one row
of three bins) are compatible and exactly contiguous, yet append with
gap raise fails, because the final numpy assignment cannot broadcast
three frequency bins into two; so success does not follow from
compatibility plus contiguity alone. -/
theorem c2_counterexample_shape :
    (∃ p, wideA.is_compatible wideB = Except.ok p) ∧
    wideA.is_contiguous wideB = Except.ok (1, wideA, wideB) ∧
    Grid.appendF wideA wideB "raise" true = Except.error
      (Err.valueError "could not broadcast input array") :=
  ⟨⟨(wideA, wideB), by with_unfolding_all decide⟩,
   by with_unfolding_all decide, by with_unfolding_all decide⟩

theorem c2_append_raise_witness :
    Grid.appendF padA ctgB "raise" true = Except.ok
      ({ data := padA.data ++ ctgB.data, cols := padA.cols,
         meta := padA.meta },
       (if true then
          { data := padA.data ++ ctgB.data, cols := padA.cols,
            meta := padA.meta }
        else padA), ctgB) ∧
    Grid.span
      { data := padA.data ++ ctgB.data, cols := padA.cols,
        meta := padA.meta } =
      Except.ok (0, 2 + (ctgB.data.length : ℚ) * 1) :=
  (c2_append_raise_amended padA ctgB true 1 1 1 1 0 0 Unitt.dimensionless
    Unitt.dimensionless 0 2 rfl rfl rfl rfl rfl rfl rfl rfl rfl rfl).2.1
    rfl rfl rfl rfl (by with_unfolding_all decide) rfl
    (by with_unfolding_all decide)

/-- C5 amended: on a successful append or prepend, inplace false
leaves self's value unchanged except that a previously-unset unit has
been lazily initialized to the dimensionless unit by the compatibility
check (the data buffer is untouched), and the result is a separate
value; with inplace true the returned state of self is the result
itself (self is mutated and returned). -/
theorem c5_inplace_amended (a b : Grid) (gap : String) (r a2 b2 : Grid) :
    (Grid.appendF a b gap false = Except.ok (r, a2, b2) →
      a2 = { a with meta := a.meta.unitDefaulted }) ∧
    (Grid.appendF a b gap true = Except.ok (r, a2, b2) → a2 = r) ∧
    (Grid.prependF a b gap false = Except.ok (r, a2, b2) →
      a2 = { a with meta := a.meta.unitDefaulted }) ∧
    (Grid.prependF a b gap true = Except.ok (r, a2, b2) → a2 = r) :=
  ⟨fun h => (Grid.appendRec_state a b gap false r a2 b2 h).1 rfl,
   fun h => (Grid.appendRec_state a b gap true r a2 b2 h).2 rfl,
   fun h => (Grid.prependRec_state a b gap false r a2 b2 h).1 rfl,
   fun h => (Grid.prependRec_state a b gap true r a2 b2 h).2 rfl⟩

/-- C5 counterexample: for the compatible contiguous pair noUnitA,
noUnitB whose units are unset, append with inplace false succeeds but
self comes out of the call with its metadata dict changed: the lazy
unit read inside the compatibility check has stored the dimensionless
unit into it before the copy is taken, so self's metadata is not left
unchanged as claimed. -/
theorem c5_counterexample_unit_mutation :
    Grid.appendF noUnitA noUnitB "raise" false = Except.ok
      ({ data := [[1], [2]], cols := 1,
         meta := { noUnitMeta with unit := some Unitt.dimensionless } },
       { data := [[1]], cols := 1,
         meta := { noUnitMeta with unit := some Unitt.dimensionless } },
       { data := [[2]], cols := 1,
         meta := { noUnitMeta with
                   epoch := some 1, unit := some Unitt.dimensionless } }) ∧
    ({ data := [[1]], cols := 1,
       meta := { noUnitMeta with unit := some Unitt.dimensionless } } :
        Grid) ≠ noUnitA :=
  ⟨by with_unfolding_all decide, by with_unfolding_all decide⟩

theorem c5_inplace_witness :
    Grid.appendF padA ctgB "raise" false =
      Except.ok (joinedAB, padA, ctgB) ∧
    padA = { padA with meta := padA.meta.unitDefaulted } :=
  ⟨by with_unfolding_all decide,
   ((c5_inplace_amended padA ctgB "raise" joinedAB padA ctgB).1
     (by with_unfolding_all decide)).symm⟩

end Gwpy
